import Mathlib

/-!
Shallow embedding of the `SnowflakeManager` particle field from
`src/animations.js` (class `SnowflakeManager`, lines 250-439).

Positions, velocities and times are modelled as rationals.  Calls to
`Math.random()` are modelled as explicit oracle inputs `r` with the
contract `0 ≤ r < 1`; `Math.sin(Date.now() * 0.001)` is modelled as an
oracle input `windSin`.  The DOM render target is modelled by a flag
`hasContainer` (container lookup succeeded) together with a count
`containerChildren` of particle elements currently attached to it.
-/

namespace Animations

/-- `CONFIG.ANIMATION.SNOWFLAKE_COUNT` (line 14). -/
def SNOWFLAKE_COUNT : Nat := 30

/-- `CONFIG.PERFORMANCE.FRAME_TIME = 16.67` (line 24). -/
def FRAME_TIME : ℚ := 1667 / 100

/-- `Utils.randomBetween(min, max) = Math.random() * (max - min) + min`
(line 86-88), with the `Math.random()` draw `r` made explicit. -/
def randomBetween (r lo hi : ℚ) : ℚ := r * (hi - lo) + lo

/-- One snowflake particle (the object literal built in
`createSnowflake`, lines 291-301).  The DOM element and the glyph are
not part of the simulated state used by the claims. -/
structure Snowflake where
  x : ℚ
  y : ℚ
  size : ℚ
  speed : ℚ
  wind : ℚ
  opacity : ℚ
  rotation : ℚ
  rotationSpeed : ℚ
deriving DecidableEq, Repr

/-- The seven `Math.random()` draws consumed by one `createSnowflake`
call (lines 293-300). -/
structure RandVec where
  rx : ℚ
  ry : ℚ
  rsize : ℚ
  rspeed : ℚ
  rwind : ℚ
  ropacity : ℚ
  rrot : ℚ

/-- The particle object built by `createSnowflake` (lines 291-301):
`x ∈ random(0, innerWidth)`, `y ∈ random(-100, -10)`,
`size ∈ random(0.8, 2.0)`, `speed ∈ random(0.5, 2)`,
`wind ∈ random(-1, 1)`, `opacity ∈ random(0.3, 0.8)`,
`rotation = 0`, `rotationSpeed ∈ random(-2, 2)`. -/
def createSnowflakeP (W : ℚ) (r : RandVec) : Snowflake where
  x := randomBetween r.rx 0 W
  y := randomBetween r.ry (-100) (-10)
  size := randomBetween r.rsize (4/5) 2
  speed := randomBetween r.rspeed (1/2) 2
  wind := randomBetween r.rwind (-1) 1
  opacity := randomBetween r.ropacity (3/10) (4/5)
  rotation := 0
  rotationSpeed := randomBetween r.rrot (-2) 2

/-- The kinematic part of the per-particle update (lines 353-356):
`y += speed * (deltaTime / 16)`, `x += (wind + windForce) * 0.5`,
`rotation += rotationSpeed`. -/
def kinematicStep (dt windForce : ℚ) (s : Snowflake) : Snowflake :=
  { s with
    y := s.y + s.speed * (dt / 16)
    x := s.x + (s.wind + windForce) * (1/2)
    rotation := s.rotation + s.rotationSpeed }

/-- The out-of-bounds respawn (lines 358-362): if `y > innerHeight + 50`
then `y := random(-100, -10)` and `x := random(0, innerWidth)`. -/
def respawnStep (W H r1 r2 : ℚ) (s : Snowflake) : Snowflake :=
  if s.y > H + 50 then
    { s with y := randomBetween r1 (-100) (-10), x := randomBetween r2 0 W }
  else s

/-- The horizontal wrap (lines 364-368): `x > innerWidth + 50 → x := -50`;
else `x < -50 → x := innerWidth + 50`. -/
def wrapStep (W : ℚ) (s : Snowflake) : Snowflake :=
  if s.x > W + 50 then { s with x := -50 }
  else if s.x < -50 then { s with x := W + 50 }
  else s

/-- The whole per-particle body of the `updateSnowflakes` loop
(lines 352-371): kinematics, then respawn, then wrap. -/
def updateSnowflake (W H dt windForce r1 r2 : ℚ) (s : Snowflake) : Snowflake :=
  wrapStep W (respawnStep W H r1 r2 (kinematicStep dt windForce s))

/-- The `for (const [id, snowflake] of this.snowflakes)` loop of
`updateSnowflakes` (lines 352-371), with the random draws of particle
number `i` supplied by `rnd i`. -/
def updateLoop (W H dt windForce : ℚ) (rnd : Nat → ℚ × ℚ) :
    Nat → List Snowflake → List Snowflake
  | _, [] => []
  | i, s :: rest =>
      updateSnowflake W H dt windForce (rnd i).1 (rnd i).2 s ::
        updateLoop W H dt windForce rnd (i + 1) rest

/-- Full manager state (constructor, lines 251-261, plus the DOM
container contents). -/
structure ManagerState where
  snowflakes : List Snowflake
  hasContainer : Bool
  containerChildren : Nat
  isActive : Bool
  animationFrame : Option Nat
  lastUpdate : ℚ
  windDirection : ℚ
  windStrength : ℚ
  warnings : Nat
  listeners : Bool
deriving DecidableEq

/-- State right after the constructor field initialisers (lines 251-259),
before `init()` runs: empty map, inactive, no scheduled frame,
`lastUpdate = 0`, `windDirection = 0`, `windStrength = 1`. -/
def initialState (hasContainer : Bool) : ManagerState where
  snowflakes := []
  hasContainer := hasContainer
  containerChildren := 0
  isActive := false
  animationFrame := none
  lastUpdate := 0
  windDirection := 0
  windStrength := 1
  warnings := 0
  listeners := false

/-- `updateSnowflakes(deltaTime)` (lines 349-372): computes
`windForce = Math.sin(Date.now() * 0.001) * this.windStrength` once
(line 350) and runs the per-particle loop with it. -/
def updateSnowflakes (W H dt windSin : ℚ) (rnd : Nat → ℚ × ℚ)
    (st : ManagerState) : ManagerState :=
  let windForce := windSin * st.windStrength
  { st with snowflakes := updateLoop W H dt windForce rnd 0 st.snowflakes }

/-- `animate(currentTime)` (lines 336-347): returns immediately when
`!isActive`; otherwise applies `updateSnowflakes(deltaTime)` and
refreshes `lastUpdate` only when `deltaTime ≥ FRAME_TIME`, then stores
the next requested frame handle `h`. -/
def animate (W H : ℚ) (h : Nat) (currentTime windSin : ℚ)
    (rnd : Nat → ℚ × ℚ) (st : ManagerState) : ManagerState :=
  if st.isActive then
    let deltaTime := currentTime - st.lastUpdate
    let st1 :=
      if FRAME_TIME ≤ deltaTime then
        { updateSnowflakes W H deltaTime windSin rnd st with
          lastUpdate := currentTime }
      else st
    { st1 with animationFrame := some h }
  else st

/-- `startAnimation()` (lines 330-334): no-op when a frame is already
scheduled; otherwise sets `isActive := true` and calls `animate()`
(which runs with `currentTime = 0`). -/
def startAnimation (W H : ℚ) (h : Nat) (windSin : ℚ)
    (rnd : Nat → ℚ × ℚ) (st : ManagerState) : ManagerState :=
  if st.animationFrame.isSome then st
  else animate W H h 0 windSin rnd { st with isActive := true }

/-- `pause()` (lines 398-404): clears `isActive` and cancels/clears the
scheduled frame handle (the `if` in the source leaves `animationFrame`
equal to `null` in both branches). -/
def pause (st : ManagerState) : ManagerState :=
  { st with isActive := false, animationFrame := none }

/-- `resume()` (lines 406-410): re-arms only when inactive and the
container exists. -/
def resume (W H : ℚ) (h : Nat) (windSin : ℚ) (rnd : Nat → ℚ × ℚ)
    (st : ManagerState) : ManagerState :=
  if !st.isActive && st.hasContainer then
    startAnimation W H h windSin rnd st
  else st

/-- `createSnowflake()` as a state transition (lines 280-311):
appends the DOM element to the container and registers the particle in
the map.  When the container is `null`, `appendChild` throws before
`snowflakes.set`, the error is caught (line 308-310), and no particle
is registered. -/
def createSnowflake (W : ℚ) (r : RandVec) (st : ManagerState) : ManagerState :=
  if st.hasContainer then
    { st with
      snowflakes := st.snowflakes ++ [createSnowflakeP W r]
      containerChildren := st.containerChildren + 1 }
  else st

/-- `n` successive `createSnowflake()` calls, loop counter starting at
`i` (the random draws of iteration `j` are `rs (i + j)`). -/
def createManyAux (W : ℚ) (rs : Nat → RandVec) : Nat → Nat → ManagerState → ManagerState
  | _, 0, st => st
  | i, n + 1, st => createManyAux W rs (i + 1) n (createSnowflake W (rs i) st)

/-- The list of particles produced by `n` `createSnowflake()` calls
starting at loop counter `i`. -/
def createdList (W : ℚ) (rs : Nat → RandVec) : Nat → Nat → List Snowflake
  | _, 0 => []
  | i, n + 1 => createSnowflakeP W (rs i) :: createdList W rs (i + 1) n

/-- `createSnowflakes()` (lines 274-278): `SNOWFLAKE_COUNT` calls to
`createSnowflake()`. -/
def createSnowflakes (W : ℚ) (rs : Nat → RandVec) (st : ManagerState) : ManagerState :=
  createManyAux W rs 0 SNOWFLAKE_COUNT st

/-- `init()` (lines 263-272): warns and returns when the container is
missing; otherwise creates the snowflakes, starts the animation and
registers the event listeners. -/
def init (W H : ℚ) (h : Nat) (windSin : ℚ) (rnd : Nat → ℚ × ℚ)
    (rs : Nat → RandVec) (st : ManagerState) : ManagerState :=
  if st.hasContainer then
    { startAnimation W H h windSin rnd (createSnowflakes W rs st) with
      listeners := true }
  else
    { st with warnings := st.warnings + 1 }

/-- `destroy()` (lines 412-418): `pause()`, clear the map, and empty the
container when it exists. -/
def destroy (st : ManagerState) : ManagerState :=
  let st1 := { pause st with snowflakes := [] }
  if st1.hasContainer then { st1 with containerChildren := 0 } else st1

/-- `updateSettings({count})` (lines 420-438): grow by
`count - current` fresh particles, or shrink by dropping the oldest
`current - count` map entries (map iteration order is insertion order)
and removing their elements. -/
def updateSettings (W : ℚ) (rs : Nat → RandVec) (count : Nat)
    (st : ManagerState) : ManagerState :=
  let current := st.snowflakes.length
  if current < count then
    createManyAux W rs 0 (count - current) st
  else if count < current then
    { st with
      snowflakes := st.snowflakes.drop (current - count)
      containerChildren := st.containerChildren - (current - count) }
  else st

/-- One externally issued tick: frame handle, `currentTime`, and the
wind oracle for that tick. -/
structure Tick where
  handle : Nat
  time : ℚ
  windSin : ℚ

/-- A sequence of externally issued `animate` invocations. -/
def animateMany (W H : ℚ) (rnd : Nat → ℚ × ℚ) (ticks : List Tick)
    (st : ManagerState) : ManagerState :=
  ticks.foldl (fun s t => animate W H t.handle t.time t.windSin rnd s) st

/-- One `advance` step of a single particle, with its oracle inputs. -/
structure Step where
  dt : ℚ
  windForce : ℚ
  r1 : ℚ
  r2 : ℚ

/-- A particle followed through a sequence of `updateSnowflakes` calls. -/
def advanceMany (W H : ℚ) (steps : List Step) (s : Snowflake) : Snowflake :=
  steps.foldl (fun s st => updateSnowflake W H st.dt st.windForce st.r1 st.r2 s) s

/-! ### Concrete sample data used by witnesses -/

/-- A concrete in-bounds particle. -/
def sampleFlake : Snowflake where
  x := 100
  y := 200
  size := 1
  speed := 1
  wind := 0
  opacity := 1/2
  rotation := 0
  rotationSpeed := 1

/-- A concrete active manager holding one particle. -/
def sampleState : ManagerState :=
  { initialState true with snowflakes := [sampleFlake], isActive := true }

/-- A particle that the next kinematic step pushes below the bottom
respawn bound (for `W = 800`, `H = 600`, `dt = 16`). -/
def highFlake : Snowflake :=
  { sampleFlake with y := 700 }

/-- A particle that one kinematic step (`dt = 16`, `windForce = 0`)
pushes past BOTH the bottom respawn bound and the right wrap bound. -/
def bothOutFlake : Snowflake :=
  { sampleFlake with x := 1701/2, y := 650, wind := 1 }

/-- A particle past the right wrap bound but comfortably above the
respawn bound after one kinematic step. -/
def rightOutFlake : Snowflake :=
  { sampleFlake with x := 1701/2, y := 0, wind := 1 }

/-! ### Helper lemmas -/

theorem updateLoop_length (W H dt wf : ℚ) (rnd : Nat → ℚ × ℚ) :
    ∀ (i : Nat) (l : List Snowflake),
      (updateLoop W H dt wf rnd i l).length = l.length := by
  intro i l
  induction l generalizing i with
  | nil => rfl
  | cons s rest ih => simpa [updateLoop] using ih (i + 1)

theorem updateLoop_get? (W H dt wf : ℚ) (rnd : Nat → ℚ × ℚ) :
    ∀ (i j : Nat) (l : List Snowflake),
      (updateLoop W H dt wf rnd i l).get? j =
        (l.get? j).map
          (fun s => updateSnowflake W H dt wf (rnd (i + j)).1 (rnd (i + j)).2 s) := by
  intro i j l
  induction l generalizing i j with
  | nil => simp [updateLoop]
  | cons s rest ih =>
      cases j with
      | zero => simp [updateLoop]
      | succ jj =>
          have := ih (i + 1) jj
          simpa [updateLoop, Nat.add_assoc, Nat.add_comm 1 jj] using this

theorem updateSnowflake_speed (W H dt wf r1 r2 : ℚ) (s : Snowflake) :
    (updateSnowflake W H dt wf r1 r2 s).speed = s.speed := by
  simp only [updateSnowflake, wrapStep, respawnStep, kinematicStep]
  split <;> split <;> simp_all <;> split <;> simp_all

theorem updateSnowflake_wind (W H dt wf r1 r2 : ℚ) (s : Snowflake) :
    (updateSnowflake W H dt wf r1 r2 s).wind = s.wind := by
  simp only [updateSnowflake, wrapStep, respawnStep, kinematicStep]
  split <;> split <;> simp_all <;> split <;> simp_all

theorem randomBetween_mem (r lo hi : ℚ) (hr0 : 0 ≤ r) (hr1 : r < 1)
    (hlh : lo ≤ hi) : lo ≤ randomBetween r lo hi ∧ randomBetween r lo hi ≤ hi := by
  unfold randomBetween
  constructor
  · nlinarith
  · nlinarith

theorem createSnowflake_hasContainer (W : ℚ) (r : RandVec) (st : ManagerState) :
    (createSnowflake W r st).hasContainer = st.hasContainer := by
  unfold createSnowflake
  split <;> rfl

theorem createdList_length (W : ℚ) (rs : Nat → RandVec) :
    ∀ (n i : Nat), (createdList W rs i n).length = n := by
  intro n
  induction n with
  | zero => intro i; rfl
  | succ n ih => intro i; simp [createdList, ih (i + 1)]

theorem createManyAux_snowflakes (W : ℚ) (rs : Nat → RandVec) :
    ∀ (n i : Nat) (st : ManagerState), st.hasContainer = true →
      (createManyAux W rs i n st).snowflakes =
        st.snowflakes ++ createdList W rs i n := by
  intro n
  induction n with
  | zero => intro i st _; simp [createManyAux, createdList]
  | succ n ih =>
      intro i st hc
      have h1 : (createSnowflake W (rs i) st).hasContainer = true := by
        rw [createSnowflake_hasContainer]; exact hc
      show (createManyAux W rs (i + 1) n (createSnowflake W (rs i) st)).snowflakes = _
      rw [ih (i + 1) _ h1]
      unfold createSnowflake
      rw [if_pos hc]
      simp [createdList]

theorem updateSnowflakes_length (W H dt ws : ℚ) (rnd : Nat → ℚ × ℚ)
    (st : ManagerState) :
    (updateSnowflakes W H dt ws rnd st).snowflakes.length =
      st.snowflakes.length := by
  simp [updateSnowflakes, updateLoop_length]

theorem animate_length (W H : ℚ) (h : Nat) (ct ws : ℚ) (rnd : Nat → ℚ × ℚ)
    (st : ManagerState) :
    (animate W H h ct ws rnd st).snowflakes.length = st.snowflakes.length := by
  simp only [animate]
  split
  · split
    · simp [updateSnowflakes, updateLoop_length]
    · rfl
  · rfl

theorem startAnimation_length (W H : ℚ) (h : Nat) (ws : ℚ) (rnd : Nat → ℚ × ℚ)
    (st : ManagerState) :
    (startAnimation W H h ws rnd st).snowflakes.length =
      st.snowflakes.length := by
  unfold startAnimation
  split
  · rfl
  · rw [animate_length]

/-! ### Claim theorems -/

/-- C1: one `updateSnowflakes(deltaTime)` call updates every particle of
the pool exactly by `y += speed * (deltaTime / 16)`,
`x += (wind + windForce) * 0.5`, `rotation += rotationSpeed` (all other
particle fields untouched by the kinematic phase), with the single
shared `windForce = windSin * windStrength` applied to every particle,
and only then applies the respawn and wrap adjustments. -/
theorem updateSnowflakes_kinematics (W H dt windSin : ℚ) (rnd : Nat → ℚ × ℚ)
    (st : ManagerState) (i : Nat) (s : Snowflake)
    (hi : st.snowflakes.get? i = some s) :
    (kinematicStep dt (windSin * st.windStrength) s).y
        = s.y + s.speed * (dt / 16) ∧
    (kinematicStep dt (windSin * st.windStrength) s).x
        = s.x + (s.wind + windSin * st.windStrength) * (1/2) ∧
    (kinematicStep dt (windSin * st.windStrength) s).rotation
        = s.rotation + s.rotationSpeed ∧
    (kinematicStep dt (windSin * st.windStrength) s).speed = s.speed ∧
    (kinematicStep dt (windSin * st.windStrength) s).wind = s.wind ∧
    (kinematicStep dt (windSin * st.windStrength) s).size = s.size ∧
    (kinematicStep dt (windSin * st.windStrength) s).opacity = s.opacity ∧
    (kinematicStep dt (windSin * st.windStrength) s).rotationSpeed
        = s.rotationSpeed ∧
    (updateSnowflakes W H dt windSin rnd st).snowflakes.get? i =
      some (wrapStep W (respawnStep W H (rnd i).1 (rnd i).2
        (kinematicStep dt (windSin * st.windStrength) s))) := by
  refine ⟨rfl, rfl, rfl, rfl, rfl, rfl, rfl, rfl, ?_⟩
  show (updateLoop W H dt (windSin * st.windStrength) rnd 0 st.snowflakes).get? i = _
  rw [updateLoop_get?]
  simp only [Nat.zero_add, hi, Option.map_some]
  rfl

/-- C1 witness. -/
theorem updateSnowflakes_kinematics_witness :
    (updateSnowflakes 800 600 16 0 (fun _ => (0, 0)) sampleState).snowflakes.get? 0 =
      some (wrapStep 800 (respawnStep 800 600 0 0
        (kinematicStep 16 (0 * sampleState.windStrength) sampleFlake))) :=
  (updateSnowflakes_kinematics 800 600 16 0 (fun _ => (0, 0)) sampleState 0
    sampleFlake rfl).2.2.2.2.2.2.2.2

/-- C2: in one `updateSnowflakes` call, a particle whose kinematically
updated `y` exceeds `H + 50` ends the call with
`y = random(-100, -10) ∈ [-100, -10]` and `x = random(0, W) ∈ [0, W]`;
a particle not exceeding the bound keeps its updated `y`. -/
theorem respawn_bounds (W H dt wf r1 r2 : ℚ) (s : Snowflake)
    (hW : 0 ≤ W) (hr1l : 0 ≤ r1) (hr1u : r1 < 1) (hr2l : 0 ≤ r2) (hr2u : r2 < 1) :
    ((kinematicStep dt wf s).y > H + 50 →
      (updateSnowflake W H dt wf r1 r2 s).y = randomBetween r1 (-100) (-10) ∧
      (updateSnowflake W H dt wf r1 r2 s).x = randomBetween r2 0 W ∧
      -100 ≤ (updateSnowflake W H dt wf r1 r2 s).y ∧
      (updateSnowflake W H dt wf r1 r2 s).y ≤ -10 ∧
      0 ≤ (updateSnowflake W H dt wf r1 r2 s).x ∧
      (updateSnowflake W H dt wf r1 r2 s).x ≤ W) ∧
    (¬ (kinematicStep dt wf s).y > H + 50 →
      (updateSnowflake W H dt wf r1 r2 s).y = (kinematicStep dt wf s).y) := by
  have hy1 : -100 ≤ randomBetween r1 (-100) (-10) ∧
      randomBetween r1 (-100) (-10) ≤ -10 :=
    randomBetween_mem r1 (-100) (-10) hr1l hr1u (by norm_num)
  have hx1 : 0 ≤ randomBetween r2 0 W ∧ randomBetween r2 0 W ≤ W :=
    randomBetween_mem r2 0 W hr2l hr2u hW
  constructor
  · intro h
    unfold updateSnowflake respawnStep
    rw [if_pos h]
    unfold wrapStep
    rw [if_neg (by simp only; linarith [hx1.1, hx1.2]),
        if_neg (by simp only; linarith [hx1.1])]
    exact ⟨rfl, rfl, hy1.1, hy1.2, hx1.1, hx1.2⟩
  · intro h
    unfold updateSnowflake respawnStep
    rw [if_neg h]
    unfold wrapStep
    split
    · rfl
    · split <;> rfl

/-- C2 witness. -/
theorem respawn_bounds_witness :
    (kinematicStep 16 0 highFlake).y > 600 + 50 ∧
    (updateSnowflake 800 600 16 0 (1/2) (1/2) highFlake).y =
      randomBetween (1/2) (-100) (-10) ∧
    -100 ≤ (updateSnowflake 800 600 16 0 (1/2) (1/2) highFlake).y ∧
    (updateSnowflake 800 600 16 0 (1/2) (1/2) highFlake).y ≤ -10 ∧
    0 ≤ (updateSnowflake 800 600 16 0 (1/2) (1/2) highFlake).x ∧
    (updateSnowflake 800 600 16 0 (1/2) (1/2) highFlake).x ≤ 800 := by
  have hout : (kinematicStep 16 0 highFlake).y > 600 + 50 := by
    norm_num [kinematicStep, highFlake, sampleFlake]
  have h := (respawn_bounds 800 600 16 0 (1/2) (1/2) highFlake (by norm_num)
    (by norm_num) (by norm_num) (by norm_num) (by norm_num)).1 hout
  exact ⟨hout, h.1, h.2.2.1, h.2.2.2.1, h.2.2.2.2.1, h.2.2.2.2.2⟩

/-- C3 counterexample: a particle whose kinematic update pushes it past
BOTH the bottom respawn bound and the right wrap bound does NOT end at
`x = -50`: the respawn (lines 358-362) overwrites `x` with a random
in-viewport value before the wrap test (lines 364-368) runs, so the
wrap branch never fires for it. -/
theorem wrap_overridden_by_respawn_cex :
    (kinematicStep 16 0 bothOutFlake).x > 800 + 50 ∧
    (kinematicStep 16 0 bothOutFlake).y > 600 + 50 ∧
    (updateSnowflake 800 600 16 0 0 (1/8) bothOutFlake).x = 100 ∧
    (updateSnowflake 800 600 16 0 0 (1/8) bothOutFlake).x ≠ -50 := by
  norm_num [updateSnowflake, kinematicStep, respawnStep, wrapStep,
    randomBetween, bothOutFlake, sampleFlake]

/-- C3 (amended): provided the particle's kinematically updated `y`
does not exceed `H + 50` (so the respawn does not overwrite `x` first),
a particle whose updated `x` exceeds `W + 50` is set to the opposite
edge `-50` (wrap, not reflection), symmetrically `x < -50` is set to
`W + 50`, and the horizontal velocity `wind` is left unchanged. -/
theorem wrap_to_opposite_edge (W H dt wf r1 r2 : ℚ) (s : Snowflake)
    (hW : 0 ≤ W) (hy : ¬ (kinematicStep dt wf s).y > H + 50) :
    ((kinematicStep dt wf s).x > W + 50 →
      (updateSnowflake W H dt wf r1 r2 s).x = -50) ∧
    ((kinematicStep dt wf s).x < -50 →
      (updateSnowflake W H dt wf r1 r2 s).x = W + 50) ∧
    (updateSnowflake W H dt wf r1 r2 s).wind = s.wind := by
  refine ⟨?_, ?_, updateSnowflake_wind W H dt wf r1 r2 s⟩
  · intro hx
    unfold updateSnowflake respawnStep
    rw [if_neg hy]
    unfold wrapStep
    rw [if_pos hx]
  · intro hx
    unfold updateSnowflake respawnStep
    rw [if_neg hy]
    unfold wrapStep
    rw [if_neg (by push_neg; linarith), if_pos hx]

/-- C3 (amended) witness. -/
theorem wrap_to_opposite_edge_witness :
    ¬ (kinematicStep 16 0 rightOutFlake).y > 600 + 50 ∧
    (kinematicStep 16 0 rightOutFlake).x > 800 + 50 ∧
    (updateSnowflake 800 600 16 0 0 0 rightOutFlake).x = -50 := by
  have hy : ¬ (kinematicStep 16 0 rightOutFlake).y > 600 + 50 := by
    norm_num [kinematicStep, rightOutFlake, sampleFlake]
  have hx : (kinematicStep 16 0 rightOutFlake).x > 800 + 50 := by
    norm_num [kinematicStep, rightOutFlake, sampleFlake]
  exact ⟨hy, hx,
    (wrap_to_opposite_edge 800 600 16 0 0 0 rightOutFlake (by norm_num) hy).1 hx⟩

/-- Single-step version of the C4 invariant: one per-particle update of
a particle with `y ≥ -100` and nonnegative fall speed lands in
`[-100, H + 50]`. -/
theorem updateSnowflake_y_mem (W H dt wf r1 r2 : ℚ) (s : Snowflake)
    (hH : 0 ≤ H) (hdt : 0 ≤ dt) (hsp : 0 < s.speed)
    (hr1l : 0 ≤ r1) (hr1u : r1 < 1) (hy : -100 ≤ s.y) :
    -100 ≤ (updateSnowflake W H dt wf r1 r2 s).y ∧
    (updateSnowflake W H dt wf r1 r2 s).y ≤ H + 50 := by
  have hy1 : -100 ≤ randomBetween r1 (-100) (-10) ∧
      randomBetween r1 (-100) (-10) ≤ -10 :=
    randomBetween_mem r1 (-100) (-10) hr1l hr1u (by norm_num)
  have hk : -100 ≤ (kinematicStep dt wf s).y := by
    have : 0 ≤ s.speed * (dt / 16) := by positivity
    simp only [kinematicStep]
    linarith
  unfold updateSnowflake respawnStep
  by_cases hout : (kinematicStep dt wf s).y > H + 50
  · rw [if_pos hout]
    unfold wrapStep
    split
    · exact ⟨hy1.1, by linarith [hy1.2]⟩
    · split
      · exact ⟨hy1.1, by linarith [hy1.2]⟩
      · exact ⟨hy1.1, by linarith [hy1.2]⟩
  · rw [if_neg hout]
    unfold wrapStep
    push_neg at hout
    split
    · exact ⟨hk, hout⟩
    · split
      · exact ⟨hk, hout⟩
      · exact ⟨hk, hout⟩

/-- C4: for a particle with fall speed `> 0` starting at `y ≥ -100`,
after any finite sequence of `advance` calls (each with `deltaTime ≥ 0`
and respawn draws in `[0, 1)`) the particle's `y` lies in
`[-100, H + 50]` — provided the sequence is nonempty or the particle
already starts inside the bound (as every freshly created particle
does, its `y` being drawn from `[-100, -10]`). -/
theorem y_invariant (W H : ℚ) (steps : List Step) (s : Snowflake)
    (hH : 0 ≤ H) (hsp : 0 < s.speed) (hy0 : -100 ≤ s.y)
    (hsteps : ∀ st ∈ steps, 0 ≤ st.dt ∧ 0 ≤ st.r1 ∧ st.r1 < 1)
    (hstart : s.y ≤ H + 50 ∨ steps ≠ []) :
    -100 ≤ (advanceMany W H steps s).y ∧
    (advanceMany W H steps s).y ≤ H + 50 := by
  induction steps generalizing s with
  | nil =>
      rcases hstart with h | h
      · exact ⟨hy0, h⟩
      · exact absurd rfl h
  | cons st rest ih =>
      have hst := hsteps st (List.mem_cons_self st rest)
      have h1 := updateSnowflake_y_mem W H st.dt st.windForce st.r1 st.r2 s
        hH hst.1 hsp hst.2.1 hst.2.2 hy0
      have hsp1 : 0 < (updateSnowflake W H st.dt st.windForce st.r1 st.r2 s).speed := by
        rw [updateSnowflake_speed]; exact hsp
      have := ih (updateSnowflake W H st.dt st.windForce st.r1 st.r2 s)
        hsp1 h1.1 (fun x hx => hsteps x (List.mem_cons_of_mem st hx))
        (Or.inl h1.2)
      simpa [advanceMany, List.foldl_cons] using this

/-- C4 witness. -/
theorem y_invariant_witness :
    -100 ≤ (advanceMany 800 600 [⟨16, 0, 0, 0⟩] sampleFlake).y ∧
    (advanceMany 800 600 [⟨16, 0, 0, 0⟩] sampleFlake).y ≤ 600 + 50 :=
  y_invariant 800 600 [⟨16, 0, 0, 0⟩] sampleFlake (by norm_num)
    (by norm_num [sampleFlake]) (by norm_num [sampleFlake])
    (by
      intro st hst
      simp only [List.mem_singleton] at hst
      subst hst
      exact ⟨by norm_num, by norm_num, by norm_num⟩)
    (Or.inl (by norm_num [sampleFlake]))

/-- A degenerate random vector for concrete evaluations. -/
def zeroRand : RandVec := ⟨0, 0, 0, 0, 0, 0, 0⟩

/-- C5: `init` on a fresh manager yields exactly
`SNOWFLAKE_COUNT = 30` particles; `createSnowflakes` adds exactly 30;
`updateSettings {count := m}` leaves the pool at exactly `m` particles
for any `m`, growing by appending fresh randomized particles or
shrinking by dropping the oldest `current - m`; and
`updateSnowflakes` / `animate` never change the pool size. -/
theorem pool_size (W H dt t : ℚ) (rs rs2 : Nat → RandVec) (h : Nat)
    (windSin : ℚ) (rnd : Nat → ℚ × ℚ) (m : Nat) (st : ManagerState)
    (hc : st.hasContainer = true) :
    (init W H h windSin rnd rs (initialState true)).snowflakes.length
        = SNOWFLAKE_COUNT ∧
    (createSnowflakes W rs st).snowflakes.length
        = st.snowflakes.length + SNOWFLAKE_COUNT ∧
    (updateSettings W rs2 m st).snowflakes.length = m ∧
    (st.snowflakes.length < m →
      (updateSettings W rs2 m st).snowflakes =
        st.snowflakes ++ createdList W rs2 0 (m - st.snowflakes.length)) ∧
    (m < st.snowflakes.length →
      (updateSettings W rs2 m st).snowflakes =
        st.snowflakes.drop (st.snowflakes.length - m)) ∧
    (updateSnowflakes W H dt windSin rnd st).snowflakes.length
        = st.snowflakes.length ∧
    (animate W H h t windSin rnd st).snowflakes.length
        = st.snowflakes.length := by
  have hcreate : ∀ (st2 : ManagerState), st2.hasContainer = true →
      (createSnowflakes W rs st2).snowflakes.length
        = st2.snowflakes.length + SNOWFLAKE_COUNT := by
    intro st2 hc2
    unfold createSnowflakes
    rw [createManyAux_snowflakes W rs SNOWFLAKE_COUNT 0 st2 hc2]
    simp [createdList_length]
  refine ⟨?_, hcreate st hc, ?_, ?_, ?_,
    updateSnowflakes_length W H dt windSin rnd st,
    animate_length W H h t windSin rnd st⟩
  · simp only [init]
    rw [if_pos (show (initialState true).hasContainer = true from rfl)]
    dsimp only
    rw [startAnimation_length, hcreate (initialState true) rfl]
    rfl
  · simp only [updateSettings]
    by_cases h1 : st.snowflakes.length < m
    · rw [if_pos h1, createManyAux_snowflakes W rs2 _ 0 st hc]
      simp only [List.length_append, createdList_length]
      omega
    · rw [if_neg h1]
      by_cases h2 : m < st.snowflakes.length
      · rw [if_pos h2]
        dsimp only
        simp only [List.length_drop]
        omega
      · rw [if_neg h2]
        omega
  · intro h1
    simp only [updateSettings]
    rw [if_pos h1, createManyAux_snowflakes W rs2 _ 0 st hc]
  · intro h2
    simp only [updateSettings]
    rw [if_neg (by omega), if_pos h2]

/-- C5 witness. -/
theorem pool_size_witness :
    sampleState.hasContainer = true ∧
    (updateSettings 800 (fun _ => zeroRand) 3 sampleState).snowflakes.length = 3 :=
  ⟨rfl, (pool_size 800 600 16 0 (fun _ => zeroRand) (fun _ => zeroRand) 1 0
    (fun _ => (0, 0)) 3 sampleState rfl).2.2.1⟩

theorem animate_isActive (W H : ℚ) (h : Nat) (ct ws : ℚ) (rnd : Nat → ℚ × ℚ)
    (st : ManagerState) :
    (animate W H h ct ws rnd st).isActive = st.isActive := by
  simp only [animate]
  split
  · split <;> rfl
  · rfl

theorem animate_of_inactive (W H : ℚ) (h : Nat) (ct ws : ℚ)
    (rnd : Nat → ℚ × ℚ) (st : ManagerState) (hA : st.isActive = false) :
    animate W H h ct ws rnd st = st := by
  unfold animate
  rw [if_neg (by simp [hA])]

theorem resume_of_isActive (W H : ℚ) (h : Nat) (ws : ℚ) (rnd : Nat → ℚ × ℚ)
    (st : ManagerState) (hA : st.isActive = true) :
    resume W H h ws rnd st = st := by
  unfold resume
  rw [if_neg (by simp [hA])]

theorem startAnimation_of_some (W H : ℚ) (h : Nat) (ws : ℚ)
    (rnd : Nat → ℚ × ℚ) (st : ManagerState)
    (hF : st.animationFrame.isSome = true) :
    startAnimation W H h ws rnd st = st := by
  unfold startAnimation
  rw [if_pos hF]

theorem startAnimation_isActive_of_none (W H : ℚ) (h : Nat) (ws : ℚ)
    (rnd : Nat → ℚ × ℚ) (st : ManagerState)
    (hF : st.animationFrame.isSome = false) :
    (startAnimation W H h ws rnd st).isActive = true := by
  unfold startAnimation
  rw [if_neg (by simp [hF]), animate_isActive]

/-- C6: `pause` is idempotent — a second consecutive `pause` leaves the
state (including `isActive`, the scheduled frame handle and the pool)
identical to one `pause` — and `resume` is idempotent: a second
consecutive `resume` re-arms nothing because the field is already
active after the first one. -/
theorem pause_resume_idempotent (W H : ℚ) (h1 h2 : Nat) (ws1 ws2 : ℚ)
    (rnd1 rnd2 : Nat → ℚ × ℚ) (st : ManagerState) :
    pause (pause st) = pause st ∧
    resume W H h2 ws2 rnd2 (resume W H h1 ws1 rnd1 st) =
      resume W H h1 ws1 rnd1 st := by
  refine ⟨rfl, ?_⟩
  by_cases hA : st.isActive = true
  · rw [resume_of_isActive W H h1 ws1 rnd1 st hA,
        resume_of_isActive W H h2 ws2 rnd2 st hA]
  · by_cases hC : st.hasContainer = true
    · have e1 : resume W H h1 ws1 rnd1 st = startAnimation W H h1 ws1 rnd1 st := by
        unfold resume
        rw [if_pos (by simp [Bool.not_eq_true] at hA; simp [hA, hC])]
      cases hF : st.animationFrame.isSome with
      | true =>
          have e2 := startAnimation_of_some W H h1 ws1 rnd1 st hF
          rw [e1, e2]
          have e3 : resume W H h2 ws2 rnd2 st = startAnimation W H h2 ws2 rnd2 st := by
            unfold resume
            rw [if_pos (by simp [Bool.not_eq_true] at hA; simp [hA, hC])]
          rw [e3, startAnimation_of_some W H h2 ws2 rnd2 st hF]
      | false =>
          rw [e1]
          exact resume_of_isActive W H h2 ws2 rnd2 _
            (startAnimation_isActive_of_none W H h1 ws1 rnd1 st hF)
    · have e1 : resume W H h1 ws1 rnd1 st = st := by
        unfold resume
        rw [if_neg (by simp [hC])]
      rw [e1]
      unfold resume
      rw [if_neg (by simp [hC])]

/-- C7: after `pause()`, any number of externally issued `animate` ticks
leave the whole state — in particular the particle pool, every
particle's position and rotation, and the pool size — unchanged, because
`animate` returns immediately while `isActive` is false. -/
theorem paused_ticks_noop (W H : ℚ) (rnd : Nat → ℚ × ℚ) (ticks : List Tick)
    (st : ManagerState) :
    animateMany W H rnd ticks (pause st) = pause st := by
  induction ticks with
  | nil => rfl
  | cons t rest ih =>
      show animateMany W H rnd rest
        (animate W H t.handle t.time t.windSin rnd (pause st)) = pause st
      rw [animate_of_inactive W H t.handle t.time t.windSin rnd (pause st) rfl]
      exact ih

/-- C8: from any prior state, `destroy()` first pauses the field
(`isActive = false`, no scheduled frame) and leaves the pool with
exactly 0 particles and, whenever the render target exists, clears all
particle elements from it. -/
theorem destroy_clears (st : ManagerState) :
    (destroy st).snowflakes.length = 0 ∧
    (destroy st).isActive = false ∧
    (destroy st).animationFrame = none ∧
    (st.hasContainer = true → (destroy st).containerChildren = 0) := by
  by_cases hC : st.hasContainer = true
  · simp [destroy, pause, hC]
  · simp [destroy, pause, hC]

/-- C8 witness. -/
theorem destroy_clears_witness :
    (destroy sampleState).snowflakes.length = 0 ∧
    (destroy sampleState).containerChildren = 0 :=
  ⟨(destroy_clears sampleState).1, (destroy_clears sampleState).2.2.2 rfl⟩

/-- C9: when the container lookup failed at construction,
`init()` degrades to a no-op that only logs a warning: no particles are
created, no animation is started, no listeners are registered, and the
state transition is total (no error propagates — every operation of the
embedding is a total function). -/
theorem init_no_container (W H : ℚ) (h : Nat) (windSin : ℚ)
    (rnd : Nat → ℚ × ℚ) (rs : Nat → RandVec) (st : ManagerState)
    (hc : st.hasContainer = false) :
    init W H h windSin rnd rs st = { st with warnings := st.warnings + 1 } ∧
    (init W H h windSin rnd rs st).snowflakes = st.snowflakes ∧
    (init W H h windSin rnd rs st).isActive = st.isActive ∧
    (init W H h windSin rnd rs st).animationFrame = st.animationFrame ∧
    (init W H h windSin rnd rs st).listeners = st.listeners ∧
    (init W H h windSin rnd rs st).containerChildren = st.containerChildren := by
  have e : init W H h windSin rnd rs st = { st with warnings := st.warnings + 1 } := by
    unfold init
    rw [if_neg (by simp [hc])]
  rw [e]
  exact ⟨rfl, rfl, rfl, rfl, rfl, rfl⟩

/-- C9 witness. -/
theorem init_no_container_witness :
    init 800 600 1 0 (fun _ => (0, 0)) (fun _ => zeroRand) (initialState false) =
      { initialState false with warnings := 1 } :=
  (init_no_container 800 600 1 0 (fun _ => (0, 0)) (fun _ => zeroRand)
    (initialState false) rfl).1

/-- C10 counterexample: ticks spaced exactly 16.6 ms apart DO advance
particles.  Starting from `lastUpdate = 0`, the tick at `t = 16.6` is
skipped (16.6 < 16.67) but does not refresh `lastUpdate`, so the tick
at `t = 33.2` sees `deltaTime = 33.2 ≥ 16.67` and mutates the pool. -/
theorem frame_gate_accumulates_cex :
    ((166 : ℚ)/5 - 83/5 = 83/5) ∧ ((83 : ℚ)/5 < FRAME_TIME) ∧
    (animateMany 800 600 (fun _ => (0, 0))
        [⟨1, 83/5, 0⟩, ⟨2, 166/5, 0⟩] sampleState).snowflakes ≠
      sampleState.snowflakes := by
  refine ⟨by norm_num, by norm_num [FRAME_TIME], ?_⟩
  norm_num [animateMany, animate, updateSnowflakes, updateLoop, updateSnowflake,
    wrapStep, respawnStep, kinematicStep, randomBetween, sampleState, sampleFlake,
    initialState, FRAME_TIME, List.foldl, Snowflake.mk.injEq]

/-- C10 (amended): a tick whose elapsed time since the last applied
update is strictly below `FRAME_TIME = 16.67` leaves every particle and
`lastUpdate` unchanged; however, skipped ticks do not refresh
`lastUpdate`, so ticks spaced 16.6 ms apart accumulate `deltaTime` and
do advance particles on a later tick. -/
theorem tick_below_frame_time_noop (W H : ℚ) (h : Nat) (ct windSin : ℚ)
    (rnd : Nat → ℚ × ℚ) (st : ManagerState)
    (hdt : ct - st.lastUpdate < FRAME_TIME) :
    (animate W H h ct windSin rnd st).snowflakes = st.snowflakes ∧
    (animate W H h ct windSin rnd st).lastUpdate = st.lastUpdate := by
  unfold animate
  by_cases hA : st.isActive = true
  · rw [if_pos hA]
    dsimp only
    rw [if_neg (not_le.mpr hdt)]
    exact ⟨rfl, rfl⟩
  · rw [if_neg hA]
    exact ⟨rfl, rfl⟩

/-- C10 (amended) witness. -/
theorem tick_below_frame_time_noop_witness :
    (10 : ℚ) - sampleState.lastUpdate < FRAME_TIME ∧
    (animate 800 600 3 10 0 (fun _ => (0, 0)) sampleState).snowflakes =
      sampleState.snowflakes :=
  ⟨by norm_num [sampleState, initialState, FRAME_TIME],
   (tick_below_frame_time_noop 800 600 3 10 0 (fun _ => (0, 0)) sampleState
     (by norm_num [sampleState, initialState, FRAME_TIME])).1⟩

end Animations
